import Mathlib

/-!
Verification of the indomi conversational booking assistant.

Shallow embedding of the dialogue state machine and its collaborators:

* `DateParser.extract_dates` and `DateParser.is_valid_date_range` embed
  `src/utils/date_parser.py`.  Free text is modelled at token granularity:
  a `Tok` is one fragment that either matches one of the six regex
  patterns of the source (carrying the value the downstream parser would
  produce, or `none` when parsing the matched fragment raises and the
  fragment is silently skipped) or matches no pattern (`Tok.junk`).
  Calendar dates are day numbers (`Int`); `datetime.now().date()` is the
  `today` field of a `DateEnv`, and `relativedelta(months=n)` is the
  abstract calendar-month addition `DateEnv.addMonths`.
* `BookingService.validate`, `BookingService.create` and
  `BookingService.update` embed `src/services/booking.py` over a JSON
  list storage (`src/storage/json_storage.py`) modelled as `List Booking`.
  ISO date strings are abstracted to their parsed day numbers, nightly
  rates are exact rationals, and the `uuid4` default factory is an
  externally supplied fresh identifier.  The wall-clock timestamp fields
  (`created_at`, `updated_at`, `status.last_updated`) are omitted: no
  verified property mentions them.
* `ConversationManager.handle_message` embeds
  `src/conversation/manager.py`.  The booking service and the language
  model are consumed through the collaborator record `Env`, matching the
  interface boundary of the specification; the terminal service calls a
  turn performs are returned as an explicit `Call` log.
* `Langgraph.handle_booking` embeds the booking node of
  `src/conversation/langgraph_flow.py`.
-/

namespace Indomi

/-- Units recognised by the pattern `N days/weeks/months from now`. -/
inductive TimeUnit
  | day
  | week
  | month
deriving DecidableEq, Repr

/-- One text fragment, classified by the regex pattern of
`DateParser.extract_dates` that matches it.  The four absolute-date
constructors carry `some d` when `dateutil.parser.parse` succeeds on the
matched fragment (producing day number `d`) and `none` when it raises and
the fragment is skipped. -/
inductive Tok
  | absSlash (d : Option Int)
  | absIso (d : Option Int)
  | absMonthDD (d : Option Int)
  | absDDMonth (d : Option Int)
  | relTomorrow
  | relNextWeek
  | relNextMonth
  | fromNow (n : Nat) (u : TimeUnit)
  | junk
deriving DecidableEq, Repr

/-- Ambient calendar data: the current date and calendar-month addition
(`relativedelta(months=n)`). -/
structure DateEnv where
  today : Int
  addMonths : Int → Nat → Int

/-- Index of the pattern (in the order of the `date_patterns` list of the
source) that matches a token; `none` for fragments matching no pattern. -/
def patIdx : Tok → Option Nat
  | .absSlash _ => some 0
  | .absIso _ => some 1
  | .absMonthDD _ => some 2
  | .absDDMonth _ => some 3
  | .relTomorrow => some 4
  | .relNextWeek => some 4
  | .relNextMonth => some 4
  | .fromNow _ _ => some 5
  | .junk => none

/-- Date produced for one matched fragment: the body of the try-block of
`extract_dates`.  `none` models the except-branch that skips the
fragment. -/
def tokDate (env : DateEnv) : Tok → Option Int
  | .absSlash d => d
  | .absIso d => d
  | .absMonthDD d => d
  | .absDDMonth d => d
  | .relTomorrow => some (env.today + 1)
  | .relNextWeek => some (env.today + 7)
  | .relNextMonth => some (env.addMonths env.today 1)
  | .fromNow n .day => some (env.today + n)
  | .fromNow n .week => some (env.today + 7 * n)
  | .fromNow n .month => some (env.addMonths env.today n)
  | .junk => none

namespace DateParser

/-- Dates collected by scanning the text with pattern number `i`
(one inner `re.finditer` pass of `extract_dates`). -/
def bucket (env : DateEnv) (i : Nat) (text : List Tok) : List Int :=
  text.filterMap (fun t => if patIdx t = some i then tokDate env t else none)

/-- The `dates` list of `extract_dates` after the outer loop over the six
patterns: dates grouped by pattern, in text order within each pattern. -/
def collectDates (env : DateEnv) (text : List Tok) : List Int :=
  bucket env 0 text ++ bucket env 1 text ++ bucket env 2 text ++
    bucket env 3 text ++ bucket env 4 text ++ bucket env 5 text

/-- All parseable dates of the text in order of appearance, used to state
the properties about texts with a given number of parseable tokens. -/
def parsedDates (env : DateEnv) (text : List Tok) : List Int :=
  text.filterMap (tokDate env)

/-- Embedding of `DateParser.extract_dates`: collect the dates, and when
at least two were found sort ascending and return the first two as
`(check_in, check_out)`; otherwise return `none`. -/
def extract_dates (env : DateEnv) (text : List Tok) : Option (Int × Int) :=
  let dates := collectDates env text
  if 2 ≤ dates.length then
    match dates.insertionSort (· ≤ ·) with
    | d0 :: d1 :: _ => some (d0, d1)
    | _ => none
  else
    none

/-- Embedding of `DateParser.is_valid_date_range`; dates are day
numbers and `today` is the day number of `datetime.now().date()`. -/
def is_valid_date_range (today check_in check_out : Int) : Bool × String :=
  if check_in < today then
    (false, "Check-in date cannot be in the past")
  else if check_out ≤ check_in then
    (false, "Check-out date must be after check-in date")
  else if 30 < check_out - check_in then
    (false, "Maximum stay duration is 30 days")
  else if 365 < check_in - today then
    (false, "Bookings can only be made up to 1 year in advance")
  else
    (true, "")

end DateParser

/-- Embedding of the `Guest` model (`src/models/booking.py`); the unused
free-form `preferences` dictionary is omitted. -/
structure Guest where
  name : String
  email : String
  phone : Option String := none
deriving DecidableEq, Repr

/-- Embedding of the `RoomDetails` model; the nightly rate is an exact
rational. -/
structure RoomDetails where
  room_type : String
  rate : ℚ
  num_adults : Int
  num_children : Int
  special_requests : Option String := none
deriving DecidableEq, Repr

/-- Embedding of the `BookingStatus` model; the wall-clock
`last_updated` field is omitted. -/
structure BookingStatus where
  is_confirmed : Bool
  is_paid : Bool
  payment_status : String
  check_in_status : String
deriving DecidableEq, Repr

/-- Field defaults of `BookingStatus()`. -/
def BookingStatus.initial : BookingStatus :=
  { is_confirmed := false, is_paid := false,
    payment_status := "pending", check_in_status := "pending" }

/-- Embedding of the `Booking` model.  Identifiers are natural numbers
standing for the UUID strings; dates are day numbers; the wall-clock
`created_at` and `updated_at` fields are omitted. -/
structure Booking where
  id : Nat
  guest : Guest
  room : RoomDetails
  check_in_date : Int
  check_out_date : Int
  status : BookingStatus
  total_amount : ℚ
deriving DecidableEq, Repr

/-- Embedding of `Booking.calculate_nights`: the timedelta between the
two dates in whole days. -/
def Booking.calculate_nights (b : Booking) : Int :=
  b.check_out_date - b.check_in_date

/-- Input dictionary accepted by `BookingService.create`.  The ISO date
strings are abstracted to their parsed day numbers; `guest` and `room`
are `none` when the corresponding key is missing from the dictionary. -/
structure BookingData where
  check_in_date : Int
  check_out_date : Int
  guest : Option Guest
  room : Option RoomDetails
deriving DecidableEq, Repr

/-- Patch dictionary accepted by `BookingService.update`: any subset of
the booking fields, merged over the stored booking before validation. -/
structure BookingPatch where
  check_in_date : Option Int := none
  check_out_date : Option Int := none
  guest : Option Guest := none
  room : Option RoomDetails := none
deriving DecidableEq, Repr

namespace JSONStorage

/-- Embedding of `JSONStorage.create`: append the item to the stored
list. -/
def createItem (store : List Booking) (b : Booking) : List Booking :=
  store ++ [b]

/-- Embedding of `JSONStorage.get`: first stored item with the given
identifier. -/
def getItem (store : List Booking) (id : Nat) : Option Booking :=
  store.find? (fun b => b.id == id)

/-- Embedding of `JSONStorage.update`: replace the first item with the
given identifier; `none` models the `ValueError` raised when no stored
item matches. -/
def updateItem : List Booking → Nat → Booking → Option (List Booking)
  | [], _, _ => none
  | x :: xs, id, item =>
    if x.id == id then some (item :: xs)
    else (updateItem xs id item).map (fun ys => x :: ys)

end JSONStorage

namespace BookingService

/-- Email field of the guest sub-dictionary, with the empty string
standing for `data.get("guest", \x7b\x7d).get("email")` being absent. -/
def guestEmail (data : BookingData) : String :=
  match data.guest with
  | none => ""
  | some g => g.email

/-- Adult count of the room sub-dictionary, defaulting to `0` exactly as
`data.get("room", \x7b\x7d).get("num_adults", 0)` does. -/
def roomAdults (data : BookingData) : Int :=
  match data.room with
  | none => 0
  | some r => r.num_adults

/-- Embedding of `BookingService.validate`: the three `ValueError`
raises of the source, checked in source order. -/
def validate (data : BookingData) : Except String BookingData :=
  if data.check_out_date ≤ data.check_in_date then
    .error "Check-out date must be after check-in date"
  else if guestEmail data = "" then
    .error "Guest email is required"
  else if roomAdults data < 1 then
    .error "At least one adult guest is required"
  else
    .ok data

/-- Embedding of `BookingService.create`.  `freshId` is the identifier
produced by the `uuid4` default factory.  The final catch-all arm is the
branch where `Guest(**...)` or `RoomDetails(**...)` would raise on a
missing sub-dictionary; it is unreachable after a successful
`validate`. -/
def create (freshId : Nat) (data : BookingData) (store : List Booking) :
    Except String Booking × List Booking :=
  match validate data with
  | .error e => (.error e, store)
  | .ok vd =>
    match vd.guest, vd.room with
    | some g, some r =>
      let booking : Booking :=
        { id := freshId, guest := g, room := r,
          check_in_date := vd.check_in_date,
          check_out_date := vd.check_out_date,
          status := BookingStatus.initial,
          total_amount := r.rate * ((vd.check_out_date - vd.check_in_date : Int) : ℚ) }
      (.ok booking, JSONStorage.createItem store booking)
    | _, _ => (.error "invalid guest or room data", store)

/-- Embedding of `BookingService.update`: fetch the stored booking,
merge the patch over its dictionary, re-validate, rebuild the booking
with recomputed `total_amount`, and store it. -/
def update (id : Nat) (patch : BookingPatch) (store : List Booking) :
    Except String Booking × List Booking :=
  match JSONStorage.getItem store id with
  | none => (.error ("Booking " ++ toString id ++ " not found"), store)
  | some booking =>
    let merged : BookingData :=
      { check_in_date := patch.check_in_date.getD booking.check_in_date,
        check_out_date := patch.check_out_date.getD booking.check_out_date,
        guest := some (patch.guest.getD booking.guest),
        room := some (patch.room.getD booking.room) }
    match validate merged with
    | .error e => (.error e, store)
    | .ok vd =>
      match vd.guest, vd.room with
      | some g, some r =>
        let updated : Booking :=
          { id := booking.id, guest := g, room := r,
            check_in_date := vd.check_in_date,
            check_out_date := vd.check_out_date,
            status := booking.status,
            total_amount := r.rate * ((vd.check_out_date - vd.check_in_date : Int) : ℚ) }
        match JSONStorage.updateItem store id updated with
        | some store2 => (.ok updated, store2)
        | none => (.error ("Item with ID " ++ toString id ++ " not found"), store)
      | _, _ => (.error "invalid guest or room data", store)

end BookingService

/-- Intent labels produced by the intent classifier; `unknown` stands
for any label other than the four recognised ones.  User-facing message
texts below reproduce the source with apostrophes written out. -/
inductive Intent
  | booking
  | rescheduling
  | cancellation
  | inquiry
  | unknown
deriving DecidableEq, Repr

/-- One inbound message, at the granularity the dialogue code inspects
it: its date-extractable fragments, a substring test against the
lowercased text (the `in` operator of the room-type loop), and the
verbatim text. -/
structure Msg where
  tokens : List Tok
  containsSub : String → Bool
  raw : String

/-- The `collected_data` dictionary restricted to the keys the dialogue
code reads: `dates`, `room_type`, `guest` (stored as the raw info
string) and `new_dates`. -/
structure Collected where
  dates : Option (Int × Int) := none
  room_type : Option String := none
  guest : Option String := none
  new_dates : Option (Int × Int) := none
deriving DecidableEq, Repr

/-- Pythonic falsiness of the `collected_data` dictionary: every tracked
key absent. -/
def Collected.isEmpty (c : Collected) : Bool :=
  c.dates.isNone && c.room_type.isNone && c.guest.isNone && c.new_dates.isNone

/-- Embedding of the `ConversationState` model of
`src/conversation/manager.py` (the free-form `context` dictionary, never
read, is omitted). -/
structure ConvState where
  user_id : String
  current_intent : Option Intent := none
  current_booking_id : Option Nat := none
  collected_data : Collected := {}
  last_message : Option Msg := none

/-- The `HOTEL_CONFIG["room_types"]` catalog of `src/config.py`, in
insertion order: key and display name. -/
def roomCatalog : List (String × String) :=
  [("standard", "Standard Room"), ("deluxe", "Deluxe Room"),
   ("suite", "Executive Suite"), ("presidential", "Presidential Suite")]

/-- The bullet list of room display names interpolated into the room
prompt. -/
def roomOptions : String :=
  String.intercalate "\n" (roomCatalog.map (fun p => "- " ++ p.2))

/-- Collaborators consumed by the dialogue code, modelled at the
interface boundary of the specification: the intent classifier, the
booking service operations (`create` takes the collected-slots
dictionary exactly as the manager passes it), and the two
language-model text generators.  `denv` is the calendar environment the
date parser reads from the wall clock. -/
structure Env where
  classify : Msg → Intent
  create_booking : Collected → Except String Booking
  get_booking : Nat → Option Booking
  update_booking : Nat → Int × Int → Except String Booking
  delete_booking : Nat → Bool
  confirmation_message : Booking → String
  inquiry_reply : Msg → String
  denv : DateEnv

/-- One side-effecting booking-service call performed during a turn. -/
inductive Call
  | create
  | get (id : Nat)
  | update (id : Nat)
  | delete (id : Nat)
deriving DecidableEq, Repr

/-- Result of one turn: the reply text, the updated per-user state, and
the log of booking-service calls the turn performed. -/
structure TurnResult where
  reply : String
  state : ConvState
  calls : List Call

namespace ConversationManager

/-- Embedding of `ConversationManager._handle_booking`.  The source
checks the `dates` key only with a TODO `pass`, so that check has no
effect; the room-type and guest checks then gate the terminal create
call. -/
def handle_booking (env : Env) (s : ConvState) : TurnResult :=
  if s.collected_data.isEmpty then
    ⟨"When would you like to check in and check out?", s, []⟩
  else if s.collected_data.room_type.isNone then
    ⟨"What type of room would you prefer? Available options:\n" ++ roomOptions, s, []⟩
  else if s.collected_data.guest.isNone then
    ⟨"Please provide your name and email for the booking.", s, []⟩
  else
    match env.create_booking s.collected_data with
    | .ok b =>
      ⟨env.confirmation_message b, { s with current_booking_id := some b.id }, [.create]⟩
    | .error e =>
      ⟨"Error creating booking: " ++ e, s, [.create]⟩

/-- Embedding of `ConversationManager._handle_rescheduling`. -/
def handle_rescheduling (env : Env) (s : ConvState) : TurnResult :=
  match s.current_booking_id with
  | none => ⟨"Please provide your booking ID to reschedule.", s, []⟩
  | some id =>
    match env.get_booking id with
    | none => ⟨"Booking " ++ toString id ++ " not found.", s, [.get id]⟩
    | some _ =>
      match s.collected_data.new_dates with
      | none => ⟨"What dates would you like to reschedule to?", s, [.get id]⟩
      | some nd =>
        match env.update_booking id nd with
        | .ok b => ⟨env.confirmation_message b, s, [.get id, .update id]⟩
        | .error e => ⟨"Error rescheduling booking: " ++ e, s, [.get id, .update id]⟩

/-- Embedding of `ConversationManager._handle_cancellation`: fetch the
referenced booking, report when it does not exist, otherwise delete. -/
def handle_cancellation (env : Env) (s : ConvState) : TurnResult :=
  match s.current_booking_id with
  | none => ⟨"Please provide your booking ID to cancel.", s, []⟩
  | some id =>
    match env.get_booking id with
    | none => ⟨"Booking " ++ toString id ++ " not found.", s, [.get id]⟩
    | some _ =>
      if env.delete_booking id then
        ⟨"Your booking has been cancelled successfully.", s, [.get id, .delete id]⟩
      else
        ⟨"Error cancelling your booking. Please try again.", s, [.get id, .delete id]⟩

/-- Embedding of `ConversationManager._handle_inquiry`: delegate the
question to the language model; no state change. -/
def handle_inquiry (env : Env) (s : ConvState) (m : Msg) : TurnResult :=
  ⟨env.inquiry_reply m, s, []⟩

/-- Dispatch on `current_intent`, mirroring the if-elif chain at the end
of `handle_message`; the final arm answers any unrecognised intent. -/
def dispatch (env : Env) (s : ConvState) (m : Msg) : TurnResult :=
  match s.current_intent with
  | some .booking => handle_booking env s
  | some .rescheduling => handle_rescheduling env s
  | some .cancellation => handle_cancellation env s
  | some .inquiry => handle_inquiry env s m
  | _ => ⟨"I am not sure how to help with that. Could you please rephrase?", s, []⟩

/-- Embedding of `ConversationManager.handle_message`: record the
message, classify the intent when none is active (initialising
`collected_data` for a fresh booking flow, or prompting for a booking ID
when rescheduling without one), then dispatch. -/
def handle_message (env : Env) (s : ConvState) (m : Msg) : TurnResult :=
  let s1 := { s with last_message := some m }
  match s1.current_intent with
  | some _ => dispatch env s1 m
  | none =>
    let i := env.classify m
    let s2 := { s1 with current_intent := some i }
    let s3 := if i = .booking then { s2 with collected_data := {} } else s2
    if i = .rescheduling ∧ s3.current_booking_id = none then
      ⟨"Please provide your booking ID to reschedule.", s3, []⟩
    else
      dispatch env s3 m

end ConversationManager

/-- One entry of the message history of the graph-based draft: a human
turn carries a full `Msg`; an outbound AI turn carries only its text
(the node itself produced it, and no verified property extracts from
it). -/
inductive LgMsg
  | human (m : Msg)
  | ai (text : String)

/-- The `.content` accessor, rebuilding a token-free `Msg` around an
outbound text. -/
def LgMsg.content : LgMsg → Msg
  | .human m => m
  | .ai text => { tokens := [], containsSub := fun _ => false, raw := text }

/-- Embedding of the `ConversationState` model of
`src/conversation/langgraph_flow.py`. -/
structure LgState where
  messages : List LgMsg
  current_intent : Option Intent := none
  collected_data : Collected := {}
  booking_id : Option Nat := none
  error : Option String := none

/-- Content of `state.messages[-1]`.  The source indexes an empty list
only on a path the surrounding manager never takes; the default stands
in for that unreachable read. -/
def lastContent (msgs : List LgMsg) : Msg :=
  (msgs.getLast?.map LgMsg.content).getD { tokens := [], containsSub := fun _ => false, raw := "" }

namespace Langgraph

/-- Embedding of the `handle_booking` node of
`src/conversation/langgraph_flow.py`: ask for dates on a fresh flow;
extract and validate dates from the last message; match a room type
against the catalog; capture the guest info verbatim and invoke the
terminal create call. -/
def handle_booking (env : Env) (s : LgState) : LgState :=
  if s.collected_data.isEmpty then
    { s with messages := s.messages ++ [.ai "When would you like to check in and check out?"] }
  else if s.collected_data.dates.isNone then
    let m := lastContent s.messages
    match DateParser.extract_dates env.denv m.tokens with
    | some (ci, co) =>
      match DateParser.is_valid_date_range env.denv.today ci co with
      | (true, _) =>
        { s with
          collected_data := { s.collected_data with dates := some (ci, co) },
          messages := s.messages ++
            [.ai ("What type of room would you prefer? Available options:\n" ++ roomOptions)] }
      | (false, err) =>
        { s with messages := s.messages ++
            [.ai ("I could not use those dates: " ++ err ++ ". Please provide different dates.")] }
    | none =>
      { s with messages := s.messages ++
          [.ai "I could not understand the dates. Please provide check-in and check-out dates."] }
  else if s.collected_data.room_type.isNone then
    let m := lastContent s.messages
    match roomCatalog.find? (fun p => m.containsSub p.1 || m.containsSub p.2.toLower) with
    | some p =>
      { s with
        collected_data := { s.collected_data with room_type := some p.1 },
        messages := s.messages ++ [.ai "Please provide your name and email for the booking."] }
    | none =>
      { s with messages := s.messages ++
          [.ai ("I did not catch that. Please choose from these room types:\n" ++ roomOptions)] }
  else if s.collected_data.guest.isNone then
    let m := lastContent s.messages
    let s2 := { s with collected_data := { s.collected_data with guest := some m.raw } }
    match env.create_booking s2.collected_data with
    | .ok b =>
      { s2 with booking_id := some b.id,
                messages := s2.messages ++ [.ai (env.confirmation_message b)] }
    | .error e =>
      { s2 with error := some e,
                messages := s2.messages ++ [.ai ("Error creating booking: " ++ e)] }
  else
    s

end Langgraph

/-- Calendar environment used for concrete evaluations: day zero is the
current date, and month addition is thirty days. -/
def sampleEnv : DateEnv :=
  { today := 0, addMonths := fun base n => base + 30 * n }

/-- A call is terminal when it is a side-effecting create, update or
delete; a lookup is not. -/
def Call.isTerminal : Call → Bool
  | .get _ => false
  | _ => true

/-! Concrete fixtures used by the witness theorems. -/

/-- Guest record for concrete runs. -/
def sampleGuest : Guest :=
  { name := "Jane Doe", email := "jane@example.com" }

/-- Room record for concrete runs: standard room at rate 100 for two
adults. -/
def sampleRoom : RoomDetails :=
  { room_type := "standard", rate := 100, num_adults := 2, num_children := 0 }

/-- The booking `BookingService.create` builds from `sampleData` under
fresh identifier 1: two nights at rate 100. -/
def sampleBooking : Booking :=
  { id := 1, guest := sampleGuest, room := sampleRoom, check_in_date := 5,
    check_out_date := 7, status := BookingStatus.initial, total_amount := 200 }

/-- Valid creation input: days 5 to 7. -/
def sampleData : BookingData :=
  { check_in_date := 5, check_out_date := 7, guest := some sampleGuest,
    room := some sampleRoom }

/-- Invalid creation input: check-out before check-in. -/
def sampleBadData : BookingData :=
  { check_in_date := 7, check_out_date := 5, guest := some sampleGuest,
    room := some sampleRoom }

/-- A rescheduling patch moving the stay to days 10 to 13. -/
def samplePatch : BookingPatch :=
  { check_in_date := some 10, check_out_date := some 13 }

/-- The booking `BookingService.update` rebuilds from `sampleBooking`
under `samplePatch`: three nights at rate 100. -/
def sampleUpdatedBooking : Booking :=
  { id := 1, guest := sampleGuest, room := sampleRoom, check_in_date := 10,
    check_out_date := 13, status := BookingStatus.initial, total_amount := 300 }

/-- An inbound message with no date tokens and no room-type match. -/
def sampleMsg : Msg :=
  { tokens := [], containsSub := fun _ => false, raw := "hello" }

/-- Collaborator environment for concrete manager runs: create always
succeeds with `sampleBooking`, lookups find nothing. -/
def sampleManagerEnv : Env :=
  { classify := fun _ => .unknown,
    create_booking := fun _ => .ok sampleBooking,
    get_booking := fun _ => none,
    update_booking := fun _ _ => .error "unavailable",
    delete_booking := fun _ => false,
    confirmation_message := fun b => "Booking confirmed: " ++ toString b.id,
    inquiry_reply := fun _ => "inquiry answer",
    denv := sampleEnv }

/-- Manager state mid-booking with every slot filled. -/
def sampleFilledState : ConvState :=
  { user_id := "u1", current_intent := some .booking,
    collected_data :=
      { dates := some (5, 6), room_type := some "standard",
        guest := some "Jane Doe jane@example.com" } }

/-- Manager state mid-cancellation referencing booking 9, which the
store does not contain. -/
def sampleCancelState : ConvState :=
  { user_id := "u1", current_intent := some .cancellation,
    current_booking_id := some 9 }

/-- Graph-node state awaiting dates, with a dateless last message. -/
def sampleLgNoDates : LgState :=
  { messages := [.human sampleMsg], current_intent := some .booking,
    collected_data := { room_type := some "standard" } }

/-- Graph-node state awaiting a room type, with a last message matching
no catalog entry. -/
def sampleLgNoRoom : LgState :=
  { messages := [.human sampleMsg], current_intent := some .booking,
    collected_data := { dates := some (5, 6) } }

/-! Helper lemmas about the date scan. -/

/-- Scanning one more token prepends its date to the bucket of its
pattern. -/
theorem DateParser.bucket_cons (env : DateEnv) (i : Nat) (t : Tok) (ts : List Tok) :
    DateParser.bucket env i (t :: ts) =
      (if patIdx t = some i then (tokDate env t).toList else []) ++
        DateParser.bucket env i ts := by
  by_cases hp : patIdx t = some i
  · cases h : tokDate env t <;> simp [DateParser.bucket, List.filterMap_cons, hp, h]
  · simp [DateParser.bucket, List.filterMap_cons, hp]

/-- The pattern-grouped date list is, as a multiset, the list of all
parseable dates of the text. -/
theorem DateParser.collect_multiset (env : DateEnv) (text : List Tok) :
    (↑(DateParser.collectDates env text) : Multiset Int) =
      ↑(DateParser.parsedDates env text) := by
  induction text with
  | nil => rfl
  | cons t ts ih =>
    cases t with
    | absSlash d =>
      cases d <;>
        simp_all [DateParser.collectDates, DateParser.parsedDates, DateParser.bucket_cons,
          List.filterMap_cons, patIdx, tokDate, ← Multiset.coe_add, ← Multiset.cons_coe,
          Multiset.add_cons, Multiset.cons_add]
    | absIso d =>
      cases d <;>
        simp_all [DateParser.collectDates, DateParser.parsedDates, DateParser.bucket_cons,
          List.filterMap_cons, patIdx, tokDate, ← Multiset.coe_add, ← Multiset.cons_coe,
          Multiset.add_cons, Multiset.cons_add]
    | absMonthDD d =>
      cases d <;>
        simp_all [DateParser.collectDates, DateParser.parsedDates, DateParser.bucket_cons,
          List.filterMap_cons, patIdx, tokDate, ← Multiset.coe_add, ← Multiset.cons_coe,
          Multiset.add_cons, Multiset.cons_add]
    | absDDMonth d =>
      cases d <;>
        simp_all [DateParser.collectDates, DateParser.parsedDates, DateParser.bucket_cons,
          List.filterMap_cons, patIdx, tokDate, ← Multiset.coe_add, ← Multiset.cons_coe,
          Multiset.add_cons, Multiset.cons_add]
    | fromNow n u =>
      cases u <;>
        simp_all [DateParser.collectDates, DateParser.parsedDates, DateParser.bucket_cons,
          List.filterMap_cons, patIdx, tokDate, ← Multiset.coe_add, ← Multiset.cons_coe,
          Multiset.add_cons, Multiset.cons_add]
    | _ =>
      simp_all [DateParser.collectDates, DateParser.parsedDates, DateParser.bucket_cons,
        List.filterMap_cons, patIdx, tokDate, ← Multiset.coe_add, ← Multiset.cons_coe,
        Multiset.add_cons, Multiset.cons_add]

/-- The collected date list is a permutation of the parseable dates of
the text in order of appearance. -/
theorem DateParser.collect_perm (env : DateEnv) (text : List Tok) :
    (DateParser.collectDates env text).Perm (DateParser.parsedDates env text) :=
  Multiset.coe_eq_coe.mp (DateParser.collect_multiset env text)

/-! Claims about the date extractor and the date-range validator. -/

/-- C5: for every text whose parseable date tokens are exactly the pair
d1 < d2, in either order of appearance, `extract_dates` returns
`(d1, d2)` as `(check_in, check_out)`. -/
theorem extract_dates_two_tokens (env : DateEnv) (text : List Tok) (d1 d2 : Int)
    (hlt : d1 < d2)
    (h : DateParser.parsedDates env text = [d1, d2] ∨
      DateParser.parsedDates env text = [d2, d1]) :
    DateParser.extract_dates env text = some (d1, d2) := by
  have hperm : (DateParser.collectDates env text).Perm [d1, d2] := by
    rcases h with h | h
    · rw [← h]
      exact DateParser.collect_perm env text
    · exact (h ▸ DateParser.collect_perm env text).trans (List.Perm.swap d1 d2 [])
  have hlen : (DateParser.collectDates env text).length = 2 := by
    simpa using hperm.length_eq
  have hpair : List.Sorted (fun a b => a ≤ b) [d1, d2] := by
    simp [List.sorted_cons]
    omega
  have hsorted : (DateParser.collectDates env text).insertionSort (· ≤ ·) = [d1, d2] :=
    List.eq_of_perm_of_sorted ((List.perm_insertionSort _ _).trans hperm)
      (List.sorted_insertionSort _ _) hpair
  simp [DateParser.extract_dates, hlen, hsorted]

/-- Witness for C5 at a concrete text: the tokens `next week` then
`tomorrow` appear out of order and are returned sorted. -/
theorem extract_dates_two_tokens_witness :
    (1 : Int) < 7 ∧
      DateParser.extract_dates sampleEnv [Tok.relNextWeek, Tok.relTomorrow] = some (1, 7) :=
  ⟨by decide,
    extract_dates_two_tokens sampleEnv [Tok.relNextWeek, Tok.relTomorrow] 1 7 (by decide)
      (Or.inr (by decide))⟩

/-- C9: for every text with zero parseable date tokens, `extract_dates`
returns `none`; unparseable fragments are skipped (they simply do not
appear among the parsed dates) and the function is total, so no
exception escapes. -/
theorem extract_dates_no_tokens (env : DateEnv) (text : List Tok)
    (h : DateParser.parsedDates env text = []) :
    DateParser.extract_dates env text = none := by
  have hnil : DateParser.collectDates env text = [] :=
    List.Perm.eq_nil (h ▸ DateParser.collect_perm env text)
  simp [DateParser.extract_dates, hnil]

/-- Witness for C9 at a concrete text made of a junk fragment and two
fragments whose downstream parse raises and is skipped. -/
theorem extract_dates_no_tokens_witness :
    DateParser.parsedDates sampleEnv [Tok.junk, Tok.absIso none, Tok.absSlash none] = [] ∧
      DateParser.extract_dates sampleEnv [Tok.junk, Tok.absIso none, Tok.absSlash none] = none :=
  ⟨by decide,
    extract_dates_no_tokens sampleEnv [Tok.junk, Tok.absIso none, Tok.absSlash none] (by decide)⟩

/-- C3 counterexample: on a text whose single parseable token is
`tomorrow` (day 1), `extract_dates` reports extraction failure instead
of the pair `(1, 2)` the claim requires. -/
theorem extract_dates_single_token_cex :
    DateParser.parsedDates sampleEnv [Tok.relTomorrow] = [1] ∧
      DateParser.extract_dates sampleEnv [Tok.relTomorrow] = none ∧
      DateParser.extract_dates sampleEnv [Tok.relTomorrow] ≠ some (1, 1 + 1) := by
  refine ⟨by decide, by decide, by decide⟩

/-- C3 amended: for every text with exactly one parseable date token,
`extract_dates` returns `none` — a pair is produced only when at least
two dates are recognised. -/
theorem extract_dates_single_token (env : DateEnv) (text : List Tok) (d : Int)
    (h : DateParser.parsedDates env text = [d]) :
    DateParser.extract_dates env text = none := by
  have hlen : (DateParser.collectDates env text).length = 1 := by
    simpa [h] using (DateParser.collect_perm env text).length_eq
  simp [DateParser.extract_dates, hlen]

/-- Witness for the amended C3 at the single token `tomorrow`. -/
theorem extract_dates_single_token_witness :
    DateParser.parsedDates sampleEnv [Tok.relTomorrow] = [1] ∧
      DateParser.extract_dates sampleEnv [Tok.relTomorrow] = none :=
  ⟨by decide, extract_dates_single_token sampleEnv [Tok.relTomorrow] 1 (by decide)⟩

/-- C4 counterexample: check-in 366 days out with a one-night stay
satisfies every precondition the claim lists, yet the validator rejects
it (lead-time rule). -/
theorem is_valid_date_range_cex :
    (0 : Int) ≤ 366 ∧ (366 : Int) < 367 ∧ (1 : Int) ≤ 367 - 366 ∧ (367 : Int) - 366 ≤ 30 ∧
      (DateParser.is_valid_date_range 0 366 367).1 = false := by
  decide

/-- C4 amended: with check-out after check-in, check-in not before
today, stay length in `[1, 30]`, and additionally check-in at most 365
days after today, the date-range validation passes. -/
theorem is_valid_date_range_passes (today check_in check_out : Int)
    (h1 : today ≤ check_in) (h2 : check_in < check_out)
    (h3 : 1 ≤ check_out - check_in) (h4 : check_out - check_in ≤ 30)
    (h5 : check_in - today ≤ 365) :
    DateParser.is_valid_date_range today check_in check_out = (true, "") := by
  unfold DateParser.is_valid_date_range
  rw [if_neg (by omega), if_neg (by omega), if_neg (by omega), if_neg (by omega)]

/-- Witness for the amended C4 at a concrete one-night stay. -/
theorem is_valid_date_range_passes_witness :
    (0 : Int) ≤ 5 ∧ (5 : Int) < 6 ∧ (1 : Int) ≤ 6 - 5 ∧ (6 : Int) - 5 ≤ 30 ∧
      (5 : Int) - 0 ≤ 365 ∧
      DateParser.is_valid_date_range 0 5 6 = (true, "") :=
  ⟨by decide, by decide, by decide, by decide, by decide,
    is_valid_date_range_passes 0 5 6 (by decide) (by decide) (by decide) (by decide) (by decide)⟩

/-- C6: for every current date, a one-night stay checking in exactly 365
days out passes validation, and one checking in exactly 366 days out is
rejected. -/
theorem is_valid_date_range_boundary (today : Int) :
    (DateParser.is_valid_date_range today (today + 365) (today + 366)).1 = true ∧
      (DateParser.is_valid_date_range today (today + 366) (today + 367)).1 = false := by
  constructor
  · unfold DateParser.is_valid_date_range
    rw [if_neg (by omega), if_neg (by omega), if_neg (by omega), if_neg (by omega)]
  · unfold DateParser.is_valid_date_range
    rw [if_neg (by omega), if_neg (by omega), if_neg (by omega), if_pos (by omega)]

/-! Claims about the conversation manager. -/

/-- C1: when the booking flow has every slot filled and the terminal
create call succeeds, `handle_message` records the new booking
reference — but, contrary to the claim, it neither resets
`current_intent` to none nor clears `collected_slots`: the intent stays
`booking` and the collected data is untouched, so the next message
re-enters the completed flow instead of starting a fresh intent
classification. -/
theorem handle_message_create_success (env : Env) (s : ConvState) (m : Msg) (b : Booking)
    (hintent : s.current_intent = some .booking)
    (hdates : s.collected_data.dates.isSome)
    (hroom : s.collected_data.room_type.isSome)
    (hguest : s.collected_data.guest.isSome)
    (hcreate : env.create_booking s.collected_data = .ok b) :
    (ConversationManager.handle_message env s m).reply = env.confirmation_message b ∧
      (ConversationManager.handle_message env s m).state.current_booking_id = some b.id ∧
      (ConversationManager.handle_message env s m).state.current_intent = some .booking ∧
      (ConversationManager.handle_message env s m).state.collected_data = s.collected_data ∧
      (ConversationManager.handle_message env s m).state.collected_data.isEmpty = false := by
  obtain ⟨d, hd⟩ := Option.isSome_iff_exists.mp hdates
  obtain ⟨r, hr⟩ := Option.isSome_iff_exists.mp hroom
  obtain ⟨g, hg⟩ := Option.isSome_iff_exists.mp hguest
  simp [ConversationManager.handle_message, ConversationManager.dispatch,
    ConversationManager.handle_booking, Collected.isEmpty, hintent, hd, hr, hg, hcreate]

/-- Witness for the C1 theorem on a concrete filled state and an
always-succeeding create collaborator. -/
theorem handle_message_create_success_witness :
    sampleFilledState.current_intent = some .booking ∧
      sampleFilledState.collected_data.dates.isSome = true ∧
      sampleFilledState.collected_data.room_type.isSome = true ∧
      sampleFilledState.collected_data.guest.isSome = true ∧
      sampleManagerEnv.create_booking sampleFilledState.collected_data = .ok sampleBooking ∧
      (ConversationManager.handle_message sampleManagerEnv sampleFilledState sampleMsg).state.current_booking_id = some 1 ∧
      (ConversationManager.handle_message sampleManagerEnv sampleFilledState sampleMsg).state.current_intent = some .booking :=
  ⟨rfl, rfl, rfl, rfl, rfl,
    by
      have h := handle_message_create_success sampleManagerEnv sampleFilledState sampleMsg
        sampleBooking rfl rfl rfl rfl rfl
      exact h.2.1,
    (handle_message_create_success sampleManagerEnv sampleFilledState sampleMsg
      sampleBooking rfl rfl rfl rfl rfl).2.2.1⟩

/-- C2: when the cancellation flow references a booking the service
does not know, `handle_message` replies with the not-found message and
performs no delete call — but, contrary to the claim, it leaves
`current_intent` as `cancellation` instead of resetting it to none. -/
theorem handle_message_cancel_not_found (env : Env) (s : ConvState) (m : Msg) (id : Nat)
    (hintent : s.current_intent = some .cancellation)
    (hbid : s.current_booking_id = some id)
    (hget : env.get_booking id = none) :
    (ConversationManager.handle_message env s m).reply =
        "Booking " ++ toString id ++ " not found." ∧
      (∀ j, Call.delete j ∉ (ConversationManager.handle_message env s m).calls) ∧
      (ConversationManager.handle_message env s m).state.current_intent =
        some .cancellation ∧
      (ConversationManager.handle_message env s m).state.collected_data =
        s.collected_data ∧
      (ConversationManager.handle_message env s m).state.current_booking_id = some id := by
  simp [ConversationManager.handle_message, ConversationManager.dispatch,
    ConversationManager.handle_cancellation, hintent, hbid, hget]

/-- Witness for the C2 theorem: cancelling the unknown booking 9. -/
theorem handle_message_cancel_not_found_witness :
    sampleCancelState.current_intent = some .cancellation ∧
      sampleCancelState.current_booking_id = some 9 ∧
      sampleManagerEnv.get_booking 9 = none ∧
      (ConversationManager.handle_message sampleManagerEnv sampleCancelState sampleMsg).reply =
        "Booking 9 not found." ∧
      Call.delete 9 ∉
        (ConversationManager.handle_message sampleManagerEnv sampleCancelState sampleMsg).calls ∧
      (ConversationManager.handle_message sampleManagerEnv sampleCancelState sampleMsg).state.current_intent =
        some .cancellation :=
  ⟨rfl, rfl, rfl,
    (handle_message_cancel_not_found sampleManagerEnv sampleCancelState sampleMsg 9
      rfl rfl rfl).1,
    (handle_message_cancel_not_found sampleManagerEnv sampleCancelState sampleMsg 9
      rfl rfl rfl).2.1 9,
    (handle_message_cancel_not_found sampleManagerEnv sampleCancelState sampleMsg 9
      rfl rfl rfl).2.2.1⟩

/-- C7: a turn that invokes no terminal action leaves the frame intact.
First conjunct: for the manager, any turn of a user with an active
intent whose call log contains no create, update or delete leaves
`current_intent`, `collected_data` and the active booking reference
unchanged.  Second and third conjuncts: in the graph-based booking
node, a turn whose date slot fails extraction or validation, or whose
room-type slot matches no catalog entry, likewise changes none of those
fields — only a re-prompt is emitted. -/
theorem failed_turn_frame :
    (∀ (env : Env) (s : ConvState) (m : Msg) (i : Intent),
        s.current_intent = some i →
        (∀ c ∈ (ConversationManager.handle_message env s m).calls, c.isTerminal = false) →
        (ConversationManager.handle_message env s m).state.current_intent =
            s.current_intent ∧
          (ConversationManager.handle_message env s m).state.collected_data =
            s.collected_data ∧
          (ConversationManager.handle_message env s m).state.current_booking_id =
            s.current_booking_id) ∧
    (∀ (env : Env) (s : LgState),
        s.collected_data.isEmpty = false →
        s.collected_data.dates = none →
        (DateParser.extract_dates env.denv (lastContent s.messages).tokens = none ∨
          ∃ p, DateParser.extract_dates env.denv (lastContent s.messages).tokens = some p ∧
            (DateParser.is_valid_date_range env.denv.today p.1 p.2).1 = false) →
        (Langgraph.handle_booking env s).current_intent = s.current_intent ∧
          (Langgraph.handle_booking env s).collected_data = s.collected_data ∧
          (Langgraph.handle_booking env s).booking_id = s.booking_id) ∧
    (∀ (env : Env) (s : LgState),
        s.collected_data.isEmpty = false →
        s.collected_data.dates.isSome = true →
        s.collected_data.room_type = none →
        roomCatalog.find? (fun p =>
          (lastContent s.messages).containsSub p.1 ||
            (lastContent s.messages).containsSub p.2.toLower) = none →
        (Langgraph.handle_booking env s).current_intent = s.current_intent ∧
          (Langgraph.handle_booking env s).collected_data = s.collected_data ∧
          (Langgraph.handle_booking env s).booking_id = s.booking_id) := by
  refine ⟨?_, ?_, ?_⟩
  · intro env s m i hi hc
    cases i with
    | booking =>
      cases h1 : s.collected_data.isEmpty with
      | true =>
        simp [ConversationManager.handle_message, ConversationManager.dispatch,
          ConversationManager.handle_booking, hi, h1]
      | false =>
        cases h2 : s.collected_data.room_type with
        | none =>
          simp [ConversationManager.handle_message, ConversationManager.dispatch,
            ConversationManager.handle_booking, hi, h1, h2]
        | some r =>
          cases h3 : s.collected_data.guest with
          | none =>
            simp [ConversationManager.handle_message, ConversationManager.dispatch,
              ConversationManager.handle_booking, hi, h1, h2, h3]
          | some g =>
            exfalso
            cases hcb : env.create_booking s.collected_data with
            | ok b =>
              have hmem := hc .create (by
                simp [ConversationManager.handle_message, ConversationManager.dispatch,
                  ConversationManager.handle_booking, hi, h1, h2, h3, hcb])
              simp [Call.isTerminal] at hmem
            | error e =>
              have hmem := hc .create (by
                simp [ConversationManager.handle_message, ConversationManager.dispatch,
                  ConversationManager.handle_booking, hi, h1, h2, h3, hcb])
              simp [Call.isTerminal] at hmem
    | rescheduling =>
      cases hbid : s.current_booking_id with
      | none =>
        simp [ConversationManager.handle_message, ConversationManager.dispatch,
          ConversationManager.handle_rescheduling, hi, hbid]
      | some id =>
        cases hget : env.get_booking id with
        | none =>
          simp [ConversationManager.handle_message, ConversationManager.dispatch,
            ConversationManager.handle_rescheduling, hi, hbid, hget]
        | some bk =>
          cases hnd : s.collected_data.new_dates with
          | none =>
            simp [ConversationManager.handle_message, ConversationManager.dispatch,
              ConversationManager.handle_rescheduling, hi, hbid, hget, hnd]
          | some nd =>
            exfalso
            cases hup : env.update_booking id nd with
            | ok b =>
              have hmem := hc (.update id) (by
                simp [ConversationManager.handle_message, ConversationManager.dispatch,
                  ConversationManager.handle_rescheduling, hi, hbid, hget, hnd, hup])
              simp [Call.isTerminal] at hmem
            | error e =>
              have hmem := hc (.update id) (by
                simp [ConversationManager.handle_message, ConversationManager.dispatch,
                  ConversationManager.handle_rescheduling, hi, hbid, hget, hnd, hup])
              simp [Call.isTerminal] at hmem
    | cancellation =>
      cases hbid : s.current_booking_id with
      | none =>
        simp [ConversationManager.handle_message, ConversationManager.dispatch,
          ConversationManager.handle_cancellation, hi, hbid]
      | some id =>
        cases hget : env.get_booking id with
        | none =>
          simp [ConversationManager.handle_message, ConversationManager.dispatch,
            ConversationManager.handle_cancellation, hi, hbid, hget]
        | some bk =>
          exfalso
          cases hdel : env.delete_booking id with
          | true =>
            have hmem := hc (.delete id) (by
              simp [ConversationManager.handle_message, ConversationManager.dispatch,
                ConversationManager.handle_cancellation, hi, hbid, hget, hdel])
            simp [Call.isTerminal] at hmem
          | false =>
            have hmem := hc (.delete id) (by
              simp [ConversationManager.handle_message, ConversationManager.dispatch,
                ConversationManager.handle_cancellation, hi, hbid, hget, hdel])
            simp [Call.isTerminal] at hmem
    | inquiry =>
      simp [ConversationManager.handle_message, ConversationManager.dispatch,
        ConversationManager.handle_inquiry, hi]
    | unknown =>
      simp [ConversationManager.handle_message, ConversationManager.dispatch, hi]
  · intro env s hemp hdates hfail
    rcases hfail with hx | ⟨⟨ci, co⟩, hx, hv⟩
    · simp [Langgraph.handle_booking, hemp, hdates, hx]
    · rcases hval : DateParser.is_valid_date_range env.denv.today ci co with ⟨b, msg⟩
      rw [hval] at hv
      simp at hv
      subst hv
      simp [Langgraph.handle_booking, hemp, hdates, hx, hval]
  · intro env s hemp hd hroom hfind
    obtain ⟨dp, hdp⟩ := Option.isSome_iff_exists.mp hd
    simp [Langgraph.handle_booking, hemp, hdp, hroom, hfind]

/-- Witness for C7: a cancellation turn whose lookup finds nothing, a
dates turn whose extraction fails, and a room turn matching no catalog
entry, each leaving the frame unchanged. -/
theorem failed_turn_frame_witness :
    ((ConversationManager.handle_message sampleManagerEnv sampleCancelState
          sampleMsg).state.current_intent = sampleCancelState.current_intent ∧
        (ConversationManager.handle_message sampleManagerEnv sampleCancelState
          sampleMsg).state.collected_data = sampleCancelState.collected_data ∧
        (ConversationManager.handle_message sampleManagerEnv sampleCancelState
          sampleMsg).state.current_booking_id = sampleCancelState.current_booking_id) ∧
      ((Langgraph.handle_booking sampleManagerEnv sampleLgNoDates).current_intent =
          sampleLgNoDates.current_intent ∧
        (Langgraph.handle_booking sampleManagerEnv sampleLgNoDates).collected_data =
          sampleLgNoDates.collected_data ∧
        (Langgraph.handle_booking sampleManagerEnv sampleLgNoDates).booking_id =
          sampleLgNoDates.booking_id) ∧
      ((Langgraph.handle_booking sampleManagerEnv sampleLgNoRoom).current_intent =
          sampleLgNoRoom.current_intent ∧
        (Langgraph.handle_booking sampleManagerEnv sampleLgNoRoom).collected_data =
          sampleLgNoRoom.collected_data ∧
        (Langgraph.handle_booking sampleManagerEnv sampleLgNoRoom).booking_id =
          sampleLgNoRoom.booking_id) :=
  ⟨failed_turn_frame.1 sampleManagerEnv sampleCancelState sampleMsg .cancellation rfl
      (by decide),
    failed_turn_frame.2.1 sampleManagerEnv sampleLgNoDates rfl rfl (Or.inl (by decide)),
    failed_turn_frame.2.2 sampleManagerEnv sampleLgNoRoom rfl rfl rfl (by decide)⟩

/-! Claims about the booking service. -/

/-- C8: every booking produced by the create and the update operation
has `total_amount = room.rate × nights` with
`nights = check_out_date − check_in_date` in whole days; for update the
dates and the rate are the patched ones, so the amount is recomputed. -/
theorem total_amount_derived :
    (∀ (fid : Nat) (data : BookingData) (store store2 : List Booking) (b : Booking),
        BookingService.create fid data store = (.ok b, store2) →
        b.total_amount = b.room.rate * ((b.calculate_nights : Int) : ℚ)) ∧
    (∀ (id : Nat) (patch : BookingPatch) (store store2 : List Booking) (b : Booking),
        BookingService.update id patch store = (.ok b, store2) →
        b.total_amount = b.room.rate * ((b.calculate_nights : Int) : ℚ)) := by
  constructor
  · intro fid data store store2 b h
    unfold BookingService.create at h
    cases hv : BookingService.validate data with
    | error e => simp [hv] at h
    | ok vd =>
      cases hg : vd.guest with
      | none => simp [hv, hg] at h
      | some g =>
        cases hr : vd.room with
        | none => simp [hv, hg, hr] at h
        | some r =>
          simp only [hv, hg, hr] at h
          simp only [Prod.mk.injEq, Except.ok.injEq] at h
          obtain ⟨hb, _⟩ := h
          subst hb
          simp [Booking.calculate_nights]
  · intro id patch store store2 b h
    unfold BookingService.update at h
    cases hgb : JSONStorage.getItem store id with
    | none => simp [hgb] at h
    | some booking =>
      cases hv : BookingService.validate
          { check_in_date := patch.check_in_date.getD booking.check_in_date,
            check_out_date := patch.check_out_date.getD booking.check_out_date,
            guest := some (patch.guest.getD booking.guest),
            room := some (patch.room.getD booking.room) } with
      | error e => simp [hgb, hv] at h
      | ok vd =>
        cases hg : vd.guest with
        | none => simp [hgb, hv, hg] at h
        | some g =>
          cases hr : vd.room with
          | none => simp [hgb, hv, hg, hr] at h
          | some r =>
            cases hs : JSONStorage.updateItem store id
                { id := booking.id, guest := g, room := r,
                  check_in_date := vd.check_in_date,
                  check_out_date := vd.check_out_date,
                  status := booking.status,
                  total_amount := r.rate *
                    ((vd.check_out_date - vd.check_in_date : Int) : ℚ) } with
            | none =>
              simp only [hgb, hv, hg, hr, hs] at h
              simp at h
            | some store3 =>
              simp only [hgb, hv, hg, hr, hs] at h
              simp only [Prod.mk.injEq, Except.ok.injEq] at h
              obtain ⟨hb, _⟩ := h
              subst hb
              simp [Booking.calculate_nights]

/-- Witness for C8: a concrete create of a two-night stay at rate 100
and a concrete update moving it to three nights. -/
theorem total_amount_derived_witness :
    BookingService.create 1 sampleData [] = (.ok sampleBooking, [sampleBooking]) ∧
      sampleBooking.total_amount =
        sampleBooking.room.rate * ((sampleBooking.calculate_nights : Int) : ℚ) ∧
      BookingService.update 1 samplePatch [sampleBooking] =
        (.ok sampleUpdatedBooking, [sampleUpdatedBooking]) ∧
      sampleUpdatedBooking.total_amount =
        sampleUpdatedBooking.room.rate *
          ((sampleUpdatedBooking.calculate_nights : Int) : ℚ) := by
  have h1 : BookingService.create 1 sampleData [] = (.ok sampleBooking, [sampleBooking]) := by
    simp [BookingService.create, BookingService.validate, BookingService.guestEmail,
      BookingService.roomAdults, sampleData, sampleGuest, sampleRoom, sampleBooking,
      JSONStorage.createItem, BookingStatus.initial]
    norm_num
  have h2 : BookingService.update 1 samplePatch [sampleBooking] =
      (.ok sampleUpdatedBooking, [sampleUpdatedBooking]) := by
    simp [BookingService.update, BookingService.validate, BookingService.guestEmail,
      BookingService.roomAdults, samplePatch, sampleGuest, sampleRoom, sampleBooking,
      sampleUpdatedBooking, JSONStorage.getItem, JSONStorage.updateItem,
      BookingStatus.initial, List.find?]
    norm_num
  exact ⟨h1, total_amount_derived.1 1 sampleData [] [sampleBooking] sampleBooking h1,
    h2, total_amount_derived.2 1 samplePatch [sampleBooking] [sampleUpdatedBooking]
      sampleUpdatedBooking h2⟩

/-- C10: whenever create reports a validation error — the three raises
of `validate`, or the unreachable missing-sub-dictionary arm — the
returned storage is exactly the storage passed in: validation completes
before the single storage write. -/
theorem create_error_no_write (fid : Nat) (data : BookingData) (store : List Booking)
    (e : String) (h : (BookingService.create fid data store).1 = .error e) :
    (BookingService.create fid data store).2 = store := by
  unfold BookingService.create at h ⊢
  cases hv : BookingService.validate data with
  | error msg => simp [hv]
  | ok vd =>
    cases hg : vd.guest with
    | none => simp [hv, hg]
    | some g =>
      cases hr : vd.room with
      | none => simp [hv, hg, hr]
      | some r => simp [hv, hg, hr] at h

/-- Witness for C10: creating from the input whose check-out precedes
its check-in leaves the empty store empty. -/
theorem create_error_no_write_witness :
    (BookingService.create 1 sampleBadData []).1 =
        .error "Check-out date must be after check-in date" ∧
      (BookingService.create 1 sampleBadData []).2 = [] :=
  ⟨by rfl,
    create_error_no_write 1 sampleBadData [] "Check-out date must be after check-in date"
      (by rfl)⟩

end Indomi
